import Mathlib

/-!
# Forward-provenance resolver of botTelegramNotion — shallow embedding

This file embeds the forwarded-message provenance resolver and the attribution
formatters of the repository (bot_hybrid.py, bot_main.py, bot_notion.py) as
executable Lean definitions and proves the specification claims about them.

Modelling conventions:
* Optional Python attributes become `Option` fields.  A `python-telegram-bot`
  `Message`/`User`/`Chat`/`MessageOrigin` object always carries its attributes
  (possibly `None`), so `getattr(x, f, default)` reads the field itself.
* Python truthiness is modelled explicitly: an object (`User`, `Chat`,
  `MessageOrigin`, `datetime`) is truthy iff it is not `None` (`Option.isSome`);
  a string is truthy iff it is present and non-empty; an `int` is truthy iff it
  is non-zero; an optional bool is truthy iff it is `some true`.
* `datetime` values are modelled by their components; `isoformat` renders the
  `YYYY-MM-DDTHH:MM:SS` string exactly as CPython does for zero microseconds
  and no timezone, which is all the resolver relies on.
* `hashlib.md5` is embedded as the real MD5 algorithm over UTF-8 bytes,
  computed with `Nat` arithmetic modulo 2^32.
-/

/-- Characters Python's `str.strip()` removes (the ASCII whitespace used here). -/
def isPySpace (c : Char) : Bool :=
  c == ' ' || c == '\t' || c == '\n' || c == '\x0d' || c == '\x0b' || c == '\x0c'

/-- Python `str.strip()`: drop leading and trailing whitespace. -/
def pyStrip (s : String) : String :=
  ⟨((s.data.dropWhile isPySpace).reverse.dropWhile isPySpace).reverse⟩

/-- Python string slicing `s[:n]` (first `n` code points). -/
def strSlice (s : String) (n : Nat) : String := ⟨s.data.take n⟩

/-- Python `"_".join(parts)`. -/
def joinUnderscore : List String → String
  | [] => ""
  | [s] => s
  | s :: rest => s ++ "_" ++ joinUnderscore rest

/-- Truthiness of an optional Python string (`None` and `""` are falsy). -/
def strTruthy : Option String → Bool
  | none => false
  | some s => !(s == "")

/-- Truthiness of an optional Python int (`None` and `0` are falsy). -/
def intTruthy : Option Int → Bool
  | none => false
  | some n => !(n == 0)

/-- Truthiness of an optional Python bool (`None` and `False` are falsy). -/
def boolTruthy : Option Bool → Bool
  | none => false
  | some b => b

/-- Python `x or y` for an optional string `x` (falsy `x`, i.e. `None` or
`""`, selects `y`). -/
def pyOrStr (x : Option String) (y : Option String) : Option String :=
  match x with
  | none => y
  | some s => if s == "" then y else some s

/-- f-string interpolation of an optional string (`None` renders as "None"). -/
def pyStr : Option String → String
  | none => "None"
  | some s => s

/-! ## MD5 (hashlib.md5) -/

/-- MD5 per-round shift amounts. -/
def md5S : List Nat :=
  [7, 12, 17, 22, 7, 12, 17, 22, 7, 12, 17, 22, 7, 12, 17, 22,
   5, 9, 14, 20, 5, 9, 14, 20, 5, 9, 14, 20, 5, 9, 14, 20,
   4, 11, 16, 23, 4, 11, 16, 23, 4, 11, 16, 23, 4, 11, 16, 23,
   6, 10, 15, 21, 6, 10, 15, 21, 6, 10, 15, 21, 6, 10, 15, 21]

/-- MD5 round constants `K[i] = floor(2^32 * abs(sin(i + 1)))`. -/
def md5K : List Nat :=
  [3614090360, 3905402710, 606105819, 3250441966,
   4118548399, 1200080426, 2821735955, 4249261313,
   1770035416, 2336552879, 4294925233, 2304563134,
   1804603682, 4254626195, 2792965006, 1236535329,
   4129170786, 3225465664, 643717713, 3921069994,
   3593408605, 38016083, 3634488961, 3889429448,
   568446438, 3275163606, 4107603335, 1163531501,
   2850285829, 4243563512, 1735328473, 2368359562,
   4294588738, 2272392833, 1839030562, 4259657740,
   2763975236, 1272893353, 4139469664, 3200236656,
   681279174, 3936430074, 3572445317, 76029189,
   3654602809, 3873151461, 530742520, 3299628645,
   4096336452, 1126891415, 2878612391, 4237533241,
   1700485571, 2399980690, 4293915773, 2240044497,
   1873313359, 4264355552, 2734768916, 1309151649,
   4149444226, 3174756917, 718787259, 3951481745]

/-- 32-bit left rotation on a `Nat` below `2^32`. -/
def leftrotate (x : Nat) (c : Nat) : Nat :=
  ((x <<< c) ||| (x >>> (32 - c))) % 4294967296

/-- Little-endian 32-bit word at index `g` of a byte list. -/
def md5Word (chunk : List Nat) (g : Nat) : Nat :=
  chunk.getD (4 * g) 0 + 256 * chunk.getD (4 * g + 1) 0 +
    65536 * chunk.getD (4 * g + 2) 0 + 16777216 * chunk.getD (4 * g + 3) 0

/-- One MD5 round `i` on state `(a, b, c, d)` with message words `M`. -/
def md5Round (M : Nat → Nat) (st : Nat × Nat × Nat × Nat) (i : Nat) :
    Nat × Nat × Nat × Nat :=
  let (a, b, c, d) := st
  let mask := 4294967295
  let fg : Nat × Nat :=
    if i < 16 then ((b &&& c) ||| ((mask ^^^ b) &&& d), i)
    else if i < 32 then ((d &&& b) ||| ((mask ^^^ d) &&& c), (5 * i + 1) % 16)
    else if i < 48 then (b ^^^ c ^^^ d, (3 * i + 5) % 16)
    else (c ^^^ (b ||| (mask ^^^ d)), (7 * i) % 16)
  let f := (fg.1 + a + md5K.getD i 0 + M fg.2) % 4294967296
  (d, (b + leftrotate f (md5S.getD i 0)) % 4294967296, b, c)

/-- Process one 64-byte chunk of the padded message. -/
def md5Chunk (st : Nat × Nat × Nat × Nat) (chunk : List Nat) :
    Nat × Nat × Nat × Nat :=
  let r := (List.range 64).foldl (md5Round (md5Word chunk)) st
  ((st.1 + r.1) % 4294967296, (st.2.1 + r.2.1) % 4294967296,
   (st.2.2.1 + r.2.2.1) % 4294967296, (st.2.2.2 + r.2.2.2) % 4294967296)

/-- Little-endian serialization of a 64-bit length. -/
def toLE8 (n : Nat) : List Nat :=
  [n % 256, n / 256 % 256, n / 65536 % 256, n / 16777216 % 256,
   n / 4294967296 % 256, n / 1099511627776 % 256,
   n / 281474976710656 % 256, n / 72057594037927936 % 256]

/-- Little-endian serialization of a 32-bit state word as four bytes. -/
def toLE4 (n : Nat) : List Nat :=
  [n % 256, n / 256 % 256, n / 65536 % 256, n / 16777216 % 256]

/-- MD5 padding: `0x80`, zeros to 56 mod 64, then the 64-bit bit length. -/
def md5Pad (msg : List Nat) : List Nat :=
  let len := msg.length
  let z := (120 - (len + 1) % 64) % 64
  msg ++ [128] ++ List.replicate z 0 ++ toLE8 ((len * 8) % 18446744073709551616)

/-- Run the compression function over all 64-byte chunks of the padded input. -/
def md5Process (padded : List Nat) : Nat × Nat × Nat × Nat :=
  (List.range (padded.length / 64)).foldl
    (fun st i => md5Chunk st ((padded.drop (64 * i)).take 64))
    (1732584193, 4023233417, 2562383102, 271733878)

/-- MD5 digest (16 bytes) of a byte list. -/
def md5Bytes (msg : List Nat) : List Nat :=
  let r := md5Process (md5Pad msg)
  toLE4 r.1 ++ toLE4 r.2.1 ++ toLE4 r.2.2.1 ++ toLE4 r.2.2.2

/-- Lower-case hex digit for `n < 16`. -/
def hexChar (n : Nat) : Char :=
  if n < 10 then Char.ofNat (48 + n) else Char.ofNat (87 + n)

/-- Two lower-case hex digits of one byte. -/
def byteHex (b : Nat) : List Char :=
  [hexChar (b / 16 % 16), hexChar (b % 16)]

/-- `hashlib.md5(bytes).hexdigest()`. -/
def md5hexdigest (msg : List Nat) : String :=
  ⟨(md5Bytes msg).flatMap byteHex⟩

/-- UTF-8 encoding of one code point, as Python `str.encode('utf-8')` does. -/
def utf8Char (c : Char) : List Nat :=
  let n := c.toNat
  if n < 128 then [n]
  else if n < 2048 then [192 ||| (n >>> 6), 128 ||| (n &&& 63)]
  else if n < 65536 then
    [224 ||| (n >>> 12), 128 ||| ((n >>> 6) &&& 63), 128 ||| (n &&& 63)]
  else
    [240 ||| (n >>> 18), 128 ||| ((n >>> 12) &&& 63),
     128 ||| ((n >>> 6) &&& 63), 128 ||| (n &&& 63)]

/-- `s.encode('utf-8')` as a byte list. -/
def strUtf8 (s : String) : List Nat := s.data.flatMap utf8Char

/-- `hashlib.md5(name.encode('utf-8')).hexdigest()[:8]` — the hidden-sender
pseudo-identity hash used by the resolver. -/
def nameHash8 (name : String) : String :=
  strSlice (md5hexdigest (strUtf8 name)) 8

/-- RFC 1321 test vector: the embedding computes real MD5. -/
theorem md5_test_vector_empty :
    md5hexdigest (strUtf8 "") = "d41d8cd98f00b204e9800998ecf8427e" := by
  decide

/-- RFC 1321 test vector: the embedding computes real MD5. -/
theorem md5_test_vector_abc :
    md5hexdigest (strUtf8 "abc") = "900150983cd24fb0d6963f7d28e17f72" := by
  decide

/-! ## Data model (the platform objects the resolver reads) -/

/-- A platform user as the resolver sees it (telegram `User`). -/
structure PyUser where
  id : Int
  username : Option String
  first_name : Option String
  last_name : Option String
deriving DecidableEq

/-- A platform chat as the resolver sees it (telegram `Chat`). -/
structure PyChat where
  id : Int
  title : Option String
  username : Option String
deriving DecidableEq

/-- A `datetime` value, by components; `isoformat` is the only operation used. -/
structure PyDatetime where
  year : Nat
  month : Nat
  day : Nat
  hour : Nat
  minute : Nat
  second : Nat
deriving DecidableEq

/-- Decimal rendering left-padded with zeros to width `w` (`%0wd`). -/
def zpad (w : Nat) (n : Nat) : String :=
  let s := toString n
  ⟨List.replicate (w - s.length) '0' ++ s.data⟩

/-- `datetime.isoformat()` for zero microseconds and no timezone:
`YYYY-MM-DDTHH:MM:SS`. -/
def PyDatetime.isoformat (d : PyDatetime) : String :=
  zpad 4 d.year ++ "-" ++ zpad 2 d.month ++ "-" ++ zpad 2 d.day ++ "T" ++
    zpad 2 d.hour ++ ":" ++ zpad 2 d.minute ++ ":" ++ zpad 2 d.second

/-- The modern `forward_origin` object.  The three shapes (`MessageOriginUser`,
`MessageOriginHiddenUser`, chat-carrying origins) are modelled by which of the
optional attributes are present, exactly what the source's
`hasattr(...) and ...` probes observe. -/
structure ForwardOrigin where
  type : Option String
  sender_user : Option PyUser
  sender_user_name : Option String
  chat : Option PyChat
  date : Option PyDatetime
deriving DecidableEq

/-- The forwarding-related attributes of an inbound message. -/
structure Message where
  forward_from : Option PyUser
  forward_from_chat : Option PyChat
  forward_sender_name : Option String
  forward_date : Option PyDatetime
  is_automatic_forward : Option Bool
  forward_origin : Option ForwardOrigin
deriving DecidableEq

/-! ## Derived data (owned by the resolver) -/

/-- The normalized `origin_info` dictionary built by the resolver. -/
structure OriginInfo where
  origin_type : Option String
  origin_sender_user_id : Option Int
  origin_sender_name : Option String
  origin_sender_username : Option String
  origin_chat_id : Option Int
  origin_chat_title : Option String
  origin_chat_username : Option String
  origin_date : Option String
deriving DecidableEq

/-- The `origin_info` dictionary before (or without) any population. -/
def emptyOriginInfo : OriginInfo :=
  ⟨none, none, none, none, none, none, none, none⟩

/-- The `legacy_sender` compatibility block. -/
structure LegacySender where
  user_id : Int
  username : Option String
  full_name : String
deriving DecidableEq

/-- The `legacy_chat` compatibility block. -/
structure LegacyChat where
  chat_id : Int
  title : Option String
  username : Option String
deriving DecidableEq

/-- The consolidated `forward_info` dictionary returned by the resolver. -/
structure ForwardInfo where
  is_forwarded : Bool
  forward_date : Option String
  is_automatic_forward : Option Bool
  unique_identifier : Option String
  origin_info : OriginInfo
  legacy_sender : Option LegacySender
  legacy_chat : Option LegacyChat
  legacy_sender_name : Option String
deriving DecidableEq

/-- `f"{getattr(u, 'first_name', '') or ''} {getattr(u, 'last_name', '') or ''}".strip()` -/
def fullName (u : PyUser) : String :=
  pyStrip (u.first_name.getD "" ++ " " ++ u.last_name.getD "")

/-! ## bot_hybrid.py -/

namespace BotHybrid

/-- The `if forward_origin:` block of `_analyze_forward_origin`
(bot_hybrid.py): populate `origin_info` from the modern origin object. -/
def originInfoOf (fo : ForwardOrigin) : OriginInfo :=
  let oi : OriginInfo :=
    { emptyOriginInfo with
      origin_type := fo.type
      origin_date := fo.date.map PyDatetime.isoformat }
  match fo.sender_user with
  | some sender_user =>
    { oi with
      origin_sender_user_id := some sender_user.id
      origin_sender_name := some (fullName sender_user)
      origin_sender_username := sender_user.username }
  | none =>
    if strTruthy fo.sender_user_name then
      { oi with origin_sender_name := fo.sender_user_name }
    else
      match fo.chat with
      | some chat =>
        { oi with
          origin_chat_id := some chat.id
          origin_chat_title := chat.title
          origin_chat_username := chat.username }
      | none => oi

/-- The identifier-construction block of `_analyze_forward_origin`
(bot_hybrid.py), run only when `is_forwarded`. -/
def mkIdentifier (origin_info : OriginInfo) (forward_date : Option PyDatetime) :
    Option String :=
  let identifier_parts : List String :=
    if intTruthy origin_info.origin_sender_user_id then
      ["USER_" ++ toString (origin_info.origin_sender_user_id.getD 0)]
    else if strTruthy origin_info.origin_sender_name then
      ["PRIVATE_" ++ nameHash8 (origin_info.origin_sender_name.getD "")]
    else if intTruthy origin_info.origin_chat_id then
      ["CHAT_" ++ toString (origin_info.origin_chat_id.getD 0)]
    else []
  let date_str := pyOrStr origin_info.origin_date
    (forward_date.map PyDatetime.isoformat)
  let identifier_parts := identifier_parts ++
    (if strTruthy date_str then ["DATE_" ++ strSlice (date_str.getD "") 10]
     else [])
  if identifier_parts.isEmpty then none
  else some (joinUnderscore identifier_parts)

/-- `_analyze_forward_origin` (bot_hybrid.py, lines 241–340). -/
def analyze_forward_origin (message : Message) : ForwardInfo :=
  let forward_from := message.forward_from
  let forward_from_chat := message.forward_from_chat
  let forward_sender_name := message.forward_sender_name
  let forward_date := message.forward_date
  let is_automatic_forward := message.is_automatic_forward
  let forward_origin := message.forward_origin
  let origin_info :=
    match forward_origin with
    | some fo => originInfoOf fo
    | none => emptyOriginInfo
  let is_forwarded :=
    forward_from.isSome || forward_from_chat.isSome ||
      strTruthy forward_sender_name || forward_date.isSome ||
      forward_origin.isSome || boolTruthy is_automatic_forward
  let unique_identifier :=
    if is_forwarded then mkIdentifier origin_info forward_date else none
  { is_forwarded := is_forwarded
    forward_date := forward_date.map PyDatetime.isoformat
    is_automatic_forward := is_automatic_forward
    unique_identifier := unique_identifier
    origin_info := origin_info
    legacy_sender := forward_from.map fun u =>
      ⟨u.id, u.username, fullName u⟩
    legacy_chat := forward_from_chat.map fun c =>
      ⟨c.id, c.title, c.username⟩
    legacy_sender_name :=
      if strTruthy forward_sender_name then forward_sender_name else none }

/-- `_get_tipster_name` (bot_hybrid.py, lines 342–371). -/
def get_tipster_name (forward_info : ForwardInfo) : String :=
  if !forward_info.is_forwarded then "Usuario directo"
  else
    let origin := forward_info.origin_info
    if strTruthy origin.origin_chat_title then origin.origin_chat_title.getD ""
    else if strTruthy origin.origin_sender_username then
      "@" ++ origin.origin_sender_username.getD ""
    else if strTruthy origin.origin_sender_name then
      origin.origin_sender_name.getD ""
    else
      let legacy_chat := forward_info.legacy_chat
      let legacy_sender := forward_info.legacy_sender
      let legacy_name := forward_info.legacy_sender_name
      if strTruthy (legacy_chat.bind LegacyChat.title) then
        (legacy_chat.bind LegacyChat.title).getD ""
      else if strTruthy (legacy_sender.bind LegacySender.username) then
        "@" ++ (legacy_sender.bind LegacySender.username).getD ""
      else if strTruthy (legacy_sender.map LegacySender.full_name) then
        (legacy_sender.map LegacySender.full_name).getD ""
      else if strTruthy legacy_name then legacy_name.getD ""
      else "Tipster desconocido"

/-- `_format_forward_response` (bot_hybrid.py, lines 373–440). -/
def format_forward_response (forward_info : ForwardInfo) : String :=
  if !forward_info.is_forwarded then ""
  else
    let origin := forward_info.origin_info
    let unique_id := forward_info.unique_identifier
    if intTruthy origin.origin_sender_user_id then
      let user_id := origin.origin_sender_user_id.getD 0
      let username := origin.origin_sender_username
      let name := origin.origin_sender_name
      if strTruthy username then
        "\n🔄 Reenviado de: @" ++ username.getD "" ++ " (ID: " ++
          toString user_id ++ ")"
      else
        "\n🔄 Reenviado de: " ++ pyStr name ++ " (ID: " ++
          toString user_id ++ ")"
    else if strTruthy origin.origin_sender_name then
      let name := origin.origin_sender_name.getD ""
      let response := "\n🔄 Reenviado de: " ++ name ++ " (privado)"
      if strTruthy unique_id then
        response ++ "\n🆔 ID: " ++ unique_id.getD ""
      else response
    else if intTruthy origin.origin_chat_id then
      let chat_id := origin.origin_chat_id.getD 0
      let title := origin.origin_chat_title
      let username := origin.origin_chat_username
      if strTruthy username then
        "\n🔄 Reenviado del canal: @" ++ username.getD "" ++ " (ID: " ++
          toString chat_id ++ ")"
      else
        "\n🔄 Reenviado de: " ++ (pyOrStr title (some "Canal")).getD "" ++
          " (ID: " ++ toString chat_id ++ ")"
    else
      let legacy_sender := forward_info.legacy_sender
      let legacy_chat := forward_info.legacy_chat
      let legacy_name := forward_info.legacy_sender_name
      match legacy_sender with
      | some ls =>
        if strTruthy ls.username then
          "\n🔄 Reenviado de: @" ++ ls.username.getD "" ++ " (ID: " ++
            toString ls.user_id ++ ")"
        else
          "\n🔄 Reenviado de: " ++ ls.full_name ++ " (ID: " ++
            toString ls.user_id ++ ")"
      | none =>
        match legacy_chat with
        | some lc =>
          if strTruthy lc.username then
            "\n🔄 Reenviado del canal: @" ++ lc.username.getD "" ++ " (ID: " ++
              toString lc.chat_id ++ ")"
          else
            "\n🔄 Reenviado de: " ++ pyStr lc.title ++ " (ID: " ++
              toString lc.chat_id ++ ")"
        | none =>
          if strTruthy legacy_name then
            let response := "\n🔄 Reenviado de: " ++ legacy_name.getD "" ++
              " (privado)"
            if strTruthy unique_id then
              response ++ "\n🆔 ID: " ++ unique_id.getD ""
            else response
          else "\n🔄 Mensaje reenviado"

end BotHybrid

/-! ## bot_main.py -/

namespace BotMain

/-- The `if forward_origin:` block of `_analyze_forward_origin` (bot_main.py).
Unlike bot_hybrid.py, this variant never stores an `origin_type` key. -/
def originInfoOf (fo : ForwardOrigin) : OriginInfo :=
  let oi : OriginInfo :=
    { emptyOriginInfo with origin_date := fo.date.map PyDatetime.isoformat }
  match fo.sender_user with
  | some sender_user =>
    { oi with
      origin_sender_user_id := some sender_user.id
      origin_sender_name := some (fullName sender_user)
      origin_sender_username := sender_user.username }
  | none =>
    if strTruthy fo.sender_user_name then
      { oi with origin_sender_name := fo.sender_user_name }
    else
      match fo.chat with
      | some chat =>
        { oi with
          origin_chat_id := some chat.id
          origin_chat_title := chat.title
          origin_chat_username := chat.username }
      | none => oi

/-- The identifier-construction block of `_analyze_forward_origin`
(bot_main.py); the inner `if sender_name:` re-check is kept verbatim. -/
def mkIdentifier (origin_info : OriginInfo) (forward_date : Option PyDatetime) :
    Option String :=
  let identifier_parts : List String :=
    if intTruthy origin_info.origin_sender_user_id then
      ["USER_" ++ toString (origin_info.origin_sender_user_id.getD 0)]
    else if strTruthy origin_info.origin_sender_name then
      let sender_name := origin_info.origin_sender_name.getD ""
      if sender_name ≠ "" then ["PRIVATE_" ++ nameHash8 sender_name] else []
    else if intTruthy origin_info.origin_chat_id then
      ["CHAT_" ++ toString (origin_info.origin_chat_id.getD 0)]
    else []
  let date_str := pyOrStr origin_info.origin_date
    (forward_date.map PyDatetime.isoformat)
  let identifier_parts := identifier_parts ++
    (if strTruthy date_str then ["DATE_" ++ strSlice (date_str.getD "") 10]
     else [])
  if identifier_parts.isEmpty then none
  else some (joinUnderscore identifier_parts)

/-- `_analyze_forward_origin` (bot_main.py, lines 154–251). -/
def analyze_forward_origin (message : Message) : ForwardInfo :=
  let forward_from := message.forward_from
  let forward_from_chat := message.forward_from_chat
  let forward_sender_name := message.forward_sender_name
  let forward_date := message.forward_date
  let is_automatic_forward := message.is_automatic_forward
  let forward_origin := message.forward_origin
  let origin_info :=
    match forward_origin with
    | some fo => originInfoOf fo
    | none => emptyOriginInfo
  let is_forwarded :=
    forward_from.isSome || forward_from_chat.isSome ||
      strTruthy forward_sender_name || forward_date.isSome ||
      forward_origin.isSome || boolTruthy is_automatic_forward
  let unique_identifier :=
    if is_forwarded then mkIdentifier origin_info forward_date else none
  { is_forwarded := is_forwarded
    forward_date := forward_date.map PyDatetime.isoformat
    is_automatic_forward := is_automatic_forward
    unique_identifier := unique_identifier
    origin_info := origin_info
    legacy_sender := forward_from.map fun u =>
      ⟨u.id, u.username, fullName u⟩
    legacy_chat := forward_from_chat.map fun c =>
      ⟨c.id, c.title, c.username⟩
    legacy_sender_name :=
      if strTruthy forward_sender_name then forward_sender_name else none }

/-- `_format_forward_response` (bot_main.py, lines 253–300). -/
def format_forward_response (forward_info : ForwardInfo) : String :=
  if !forward_info.is_forwarded then ""
  else
    let origin := forward_info.origin_info
    let unique_id := forward_info.unique_identifier
    if intTruthy origin.origin_sender_user_id then
      let user_id := origin.origin_sender_user_id.getD 0
      let username := origin.origin_sender_username
      let name := origin.origin_sender_name
      let user_info := "ID: " ++ toString user_id
      let user_info :=
        if strTruthy username then user_info ++ " (@" ++ username.getD "" ++ ")"
        else if strTruthy name then user_info ++ " (" ++ name.getD "" ++ ")"
        else user_info
      "\n\n🔄 **Mensaje reenviado de usuario**\n👤 " ++ user_info
    else if strTruthy origin.origin_sender_name then
      let name := origin.origin_sender_name.getD ""
      "\n\n🔄 **Mensaje reenviado**\n👤 Usuario: " ++ name ++ " (perfil privado)"
    else if intTruthy origin.origin_chat_id then
      let chat_id := origin.origin_chat_id.getD 0
      let title := origin.origin_chat_title
      let username := origin.origin_chat_username
      let chat_info := "ID: " ++ toString chat_id
      let chat_info :=
        if strTruthy username then chat_info ++ " (@" ++ username.getD "" ++ ")"
        else if strTruthy title then chat_info ++ " (" ++ title.getD "" ++ ")"
        else chat_info
      "\n\n🔄 **Mensaje reenviado de canal/grupo**\n📢 " ++ chat_info
    else
      match forward_info.legacy_sender with
      | some legacy =>
        "\n\n🔄 **Mensaje reenviado**\n👤 " ++ legacy.full_name ++
          " (ID: " ++ toString legacy.user_id ++ ")"
      | none =>
        "\n\n🔄 **Mensaje reenviado**\n📝 ID único: " ++
          pyStr (pyOrStr unique_id (some "N/A"))

end BotMain

/-! ## bot_notion.py -/

namespace BotNotion

/-- `_get_tipster_name` (bot_notion.py, lines 287–319); textually the same
priority chain as the bot_hybrid.py variant. -/
def get_tipster_name (forward_info : ForwardInfo) : String :=
  if !forward_info.is_forwarded then "Usuario directo"
  else
    let origin := forward_info.origin_info
    if strTruthy origin.origin_chat_title then origin.origin_chat_title.getD ""
    else if strTruthy origin.origin_sender_username then
      "@" ++ origin.origin_sender_username.getD ""
    else if strTruthy origin.origin_sender_name then
      origin.origin_sender_name.getD ""
    else
      let legacy_chat := forward_info.legacy_chat
      let legacy_sender := forward_info.legacy_sender
      let legacy_name := forward_info.legacy_sender_name
      if strTruthy (legacy_chat.bind LegacyChat.title) then
        (legacy_chat.bind LegacyChat.title).getD ""
      else if strTruthy (legacy_sender.bind LegacySender.username) then
        "@" ++ (legacy_sender.bind LegacySender.username).getD ""
      else if strTruthy (legacy_sender.map LegacySender.full_name) then
        (legacy_sender.map LegacySender.full_name).getD ""
      else if strTruthy legacy_name then legacy_name.getD ""
      else "Tipster desconocido"

end BotNotion


/-! ## Support lemmas -/

theorem str_data_append (a b : String) : (a ++ b).data = a.data ++ b.data := rfl

theorem str_ne_empty_iff (s : String) : s ≠ "" ↔ s.data ≠ [] := by
  constructor
  · intro h hd
    exact h (String.ext hd)
  · intro h hs
    exact h (by simp [hs])

theorem strTruthy_none : strTruthy none = false := rfl

theorem strTruthy_some (s : String) : strTruthy (some s) = !(s == "") := rfl

theorem strTruthy_iff (o : Option String) : strTruthy o = true ↔ o.getD "" ≠ "" := by
  cases o <;> simp [strTruthy]

theorem strTruthy_iff_exists (o : Option String) :
    strTruthy o = true ↔ ∃ s, o = some s ∧ s ≠ "" := by
  cases o <;> simp [strTruthy]

theorem intTruthy_iff (o : Option Int) : intTruthy o = true ↔ o.getD 0 ≠ 0 := by
  cases o <;> simp [intTruthy]

theorem boolTruthy_iff (o : Option Bool) : boolTruthy o = true ↔ o = some true := by
  cases o with
  | none => simp [boolTruthy]
  | some b => cases b <;> simp [boolTruthy]

theorem isSome_iff_ne_none {α : Type} (o : Option α) : o.isSome = true ↔ o ≠ none := by
  cases o <;> simp

/-- `isoformat` always yields a non-empty (truthy) string: it contains the
date separators regardless of the component values. -/
theorem isoformat_ne_empty (d : PyDatetime) : PyDatetime.isoformat d ≠ "" := by
  rw [str_ne_empty_iff, PyDatetime.isoformat]
  simp only [str_data_append, ne_eq, List.append_eq_nil]
  intro h
  exact List.cons_ne_nil _ _ h.1.1.1.1.1.1.1.2

/-- Lower-case hexadecimal digit predicate. -/
def isHexDigit (c : Char) : Bool :=
  c.isDigit || ('a' ≤ c && c ≤ 'f')

theorem hexChar_isHexDigit (n : Nat) (h : n < 16) : isHexDigit (hexChar n) = true := by
  interval_cases n <;> decide

theorem byteHex_length (b : Nat) : (byteHex b).length = 2 := rfl

theorem byteHex_isHexDigit (b : Nat) (c : Char) (h : c ∈ byteHex b) :
    isHexDigit c = true := by
  simp only [byteHex, List.mem_cons, List.not_mem_nil, or_false] at h
  rcases h with h | h <;> subst h <;>
    exact hexChar_isHexDigit _ (Nat.mod_lt _ (by omega))

theorem md5Bytes_length (msg : List Nat) : (md5Bytes msg).length = 16 := by
  simp [md5Bytes, toLE4]

theorem flatMap_byteHex_length (l : List Nat) :
    (l.flatMap byteHex).length = 2 * l.length := by
  induction l with
  | nil => rfl
  | cons b t ih =>
    simp only [List.flatMap_cons, List.length_append, ih, byteHex,
      List.length_cons, List.length_nil, List.length_cons]
    omega

theorem md5hexdigest_length (msg : List Nat) : (md5hexdigest msg).length = 32 := by
  show ((md5Bytes msg).flatMap byteHex).length = 32
  rw [flatMap_byteHex_length, md5Bytes_length]

theorem md5hexdigest_isHexDigit (msg : List Nat) (c : Char)
    (h : c ∈ (md5hexdigest msg).data) : isHexDigit c = true := by
  have h' : c ∈ (md5Bytes msg).flatMap byteHex := h
  rcases List.mem_flatMap.mp h' with ⟨b, -, hc⟩
  exact byteHex_isHexDigit b c hc

theorem nameHash8_length (name : String) : (nameHash8 name).length = 8 := by
  show ((md5hexdigest (strUtf8 name)).data.take 8).length = 8
  rw [List.length_take]
  have := md5hexdigest_length (strUtf8 name)
  simp only [String.length] at this
  omega

theorem nameHash8_isHexDigit (name : String) :
    (nameHash8 name).data.all isHexDigit = true := by
  rw [List.all_eq_true]
  intro c hc
  exact md5hexdigest_isHexDigit (strUtf8 name) c (List.mem_of_mem_take hc)

/-! ## Claim-side (specification) renderings

These definitions restate, in the spec's own vocabulary, the derivations the
claims describe.  They are written from the claim text ("present" read as
Python-truthy: a non-`None`, non-zero id; a non-`None`, non-empty string) and
are compared against the source embeddings above. -/

/-- The identity segment of the unique identifier as the spec states it:
strict priority chain `USER_<id>` > `PRIVATE_<hash8>` > `CHAT_<chat_id>`,
first match wins. -/
def specIdentitySegment (oi : OriginInfo) : Option String :=
  if oi.origin_sender_user_id.getD 0 ≠ 0 then
    some ("USER_" ++ toString (oi.origin_sender_user_id.getD 0))
  else if oi.origin_sender_name.getD "" ≠ "" then
    some ("PRIVATE_" ++ nameHash8 (oi.origin_sender_name.getD ""))
  else if oi.origin_chat_id.getD 0 ≠ 0 then
    some ("CHAT_" ++ toString (oi.origin_chat_id.getD 0))
  else none

/-- The date segment as the spec states it: `origin_date` preferred, else the
legacy `forward_date`, rendered as `DATE_` plus the first ten characters of
the ISO string. -/
def specDateSegment (oi : OriginInfo) (forward_date : Option PyDatetime) :
    Option String :=
  match oi.origin_date with
  | some s => some ("DATE_" ++ strSlice s 10)
  | none => forward_date.map fun d => "DATE_" ++ strSlice d.isoformat 10

/-- Join the produced segments with `"_"`; absent (not empty) when no segment
was produced. -/
def specJoinSegments : Option String → Option String → Option String
  | none, none => none
  | some a, none => some a
  | none, some b => some b
  | some a, some b => some (a ++ "_" ++ b)

theorem originInfoOf_origin_date (fo : ForwardOrigin) :
    (BotHybrid.originInfoOf fo).origin_date = fo.date.map PyDatetime.isoformat := by
  rw [BotHybrid.originInfoOf]
  rcases fo.sender_user with _ | su
  · by_cases h : strTruthy fo.sender_user_name
    · simp [h]
    · rcases fo.chat with _ | c <;> simp [h]
  · simp

theorem joinSegments_toList (A B : Option String) :
    (if (A.toList ++ B.toList).isEmpty then none
     else some (joinUnderscore (A.toList ++ B.toList))) = specJoinSegments A B := by
  cases A <;> cases B <;> simp [specJoinSegments, joinUnderscore]

/-- The identifier-construction block agrees with the spec's segment chain
whenever `origin_date`, if present, is non-empty (which the resolver
guarantees: it only ever stores an `isoformat` string there). -/
theorem mkIdentifier_eq_spec (oi : OriginInfo) (fd : Option PyDatetime)
    (hod : ∀ s, oi.origin_date = some s → s ≠ "") :
    BotHybrid.mkIdentifier oi fd =
      specJoinSegments (specIdentitySegment oi) (specDateSegment oi fd) := by
  have hid : (if intTruthy oi.origin_sender_user_id then
        ["USER_" ++ toString (oi.origin_sender_user_id.getD 0)]
      else if strTruthy oi.origin_sender_name then
        ["PRIVATE_" ++ nameHash8 (oi.origin_sender_name.getD "")]
      else if intTruthy oi.origin_chat_id then
        ["CHAT_" ++ toString (oi.origin_chat_id.getD 0)]
      else []) = (specIdentitySegment oi).toList := by
    by_cases h1 : intTruthy oi.origin_sender_user_id
    · have h1x : oi.origin_sender_user_id.getD 0 ≠ 0 := (intTruthy_iff _).mp h1
      simp [specIdentitySegment, h1, h1x]
    · have h1x : ¬oi.origin_sender_user_id.getD 0 ≠ 0 := fun hc =>
        h1 ((intTruthy_iff _).mpr hc)
      by_cases h2 : strTruthy oi.origin_sender_name
      · have h2x : oi.origin_sender_name.getD "" ≠ "" := (strTruthy_iff _).mp h2
        simp [specIdentitySegment, h1, h1x, h2, h2x]
      · have h2x : ¬oi.origin_sender_name.getD "" ≠ "" := fun hc =>
          h2 ((strTruthy_iff _).mpr hc)
        by_cases h3 : intTruthy oi.origin_chat_id
        · have h3x : oi.origin_chat_id.getD 0 ≠ 0 := (intTruthy_iff _).mp h3
          simp [specIdentitySegment, h1, h1x, h2, h2x, h3, h3x]
        · have h3x : ¬oi.origin_chat_id.getD 0 ≠ 0 := fun hc =>
            h3 ((intTruthy_iff _).mpr hc)
          simp [specIdentitySegment, h1, h1x, h2, h2x, h3, h3x]
  have hdt : (if strTruthy (pyOrStr oi.origin_date (fd.map PyDatetime.isoformat)) then
        ["DATE_" ++
          strSlice ((pyOrStr oi.origin_date (fd.map PyDatetime.isoformat)).getD "") 10]
      else []) = (specDateSegment oi fd).toList := by
    rcases ho : oi.origin_date with _ | s
    · rcases hf : fd with _ | d
      · simp [pyOrStr, specDateSegment, ho, hf, strTruthy]
      · have hne := isoformat_ne_empty d
        simp [pyOrStr, specDateSegment, ho, hf, strTruthy_some, hne]
    · have hs := hod s ho
      simp [pyOrStr, specDateSegment, ho, strTruthy_some, hs]
  simp only [BotHybrid.mkIdentifier, hid, hdt, joinSegments_toList]

theorem analyze_origin_info_none (m : Message) (h : m.forward_origin = none) :
    (BotHybrid.analyze_forward_origin m).origin_info = emptyOriginInfo := by
  simp [BotHybrid.analyze_forward_origin, h]

theorem analyze_origin_info_some (m : Message) (fo : ForwardOrigin)
    (h : m.forward_origin = some fo) :
    (BotHybrid.analyze_forward_origin m).origin_info = BotHybrid.originInfoOf fo := by
  simp [BotHybrid.analyze_forward_origin, h]

/-- The resolver only ever stores an `isoformat` rendering (never an empty
string) in `origin_info.origin_date`. -/
theorem analyze_origin_date_ne_empty (m : Message) (s : String)
    (h : (BotHybrid.analyze_forward_origin m).origin_info.origin_date = some s) :
    s ≠ "" := by
  rcases hfo : m.forward_origin with _ | fo
  · rw [analyze_origin_info_none m hfo] at h
    simp [emptyOriginInfo] at h
  · rw [analyze_origin_info_some m fo hfo, originInfoOf_origin_date] at h
    rcases hd : fo.date with _ | d
    · simp [hd] at h
    · rw [hd] at h
      simp only [Option.map_some', Option.some.injEq] at h
      rw [← h]
      exact isoformat_ne_empty d

theorem analyze_unique_identifier (m : Message) :
    (BotHybrid.analyze_forward_origin m).unique_identifier =
      if (BotHybrid.analyze_forward_origin m).is_forwarded then
        BotHybrid.mkIdentifier (BotHybrid.analyze_forward_origin m).origin_info
          m.forward_date
      else none := rfl

/-- **C1.** For every message, the resolver computes `unique_identifier` only
when `is_forwarded` is true, by the strict first-match priority chain
`USER_<id>` > `PRIVATE_<hash8 of the UTF-8 name>` > `CHAT_<chat_id>`, with a
`DATE_<first ten ISO characters>` segment appended independently
(`origin_date` preferred, else legacy `forward_date`), segments joined by
`"_"`, and an absent identifier when no segment was produced or the message
is not forwarded. -/
theorem C1_unique_identifier_priority_chain (m : Message) :
    (BotHybrid.analyze_forward_origin m).unique_identifier =
      if (BotHybrid.analyze_forward_origin m).is_forwarded then
        specJoinSegments
          (specIdentitySegment (BotHybrid.analyze_forward_origin m).origin_info)
          (specDateSegment (BotHybrid.analyze_forward_origin m).origin_info
            m.forward_date)
      else none := by
  rw [analyze_unique_identifier]
  by_cases h : (BotHybrid.analyze_forward_origin m).is_forwarded
  · simp only [h, if_true]
    exact mkIdentifier_eq_spec _ _ (analyze_origin_date_ne_empty m)
  · simp only [h, Bool.false_eq_true, if_false]

theorem analyze_is_forwarded (m : Message) :
    (BotHybrid.analyze_forward_origin m).is_forwarded =
      (m.forward_from.isSome || m.forward_from_chat.isSome ||
        strTruthy m.forward_sender_name || m.forward_date.isSome ||
        m.forward_origin.isSome || boolTruthy m.is_automatic_forward) := rfl

/-- **C2.** `is_forwarded` is true exactly when at least one of the six
forwarding signals is truthy: legacy `forward_from`, legacy
`forward_from_chat`, legacy `forward_sender_name` (non-empty), legacy
`forward_date`, the modern `forward_origin` object (any shape), or
`is_automatic_forward`; with none present it is false. -/
theorem C2_is_forwarded_iff_any_signal (m : Message) :
    (BotHybrid.analyze_forward_origin m).is_forwarded = true ↔
      (m.forward_from ≠ none ∨ m.forward_from_chat ≠ none ∨
        (∃ s, m.forward_sender_name = some s ∧ s ≠ "") ∨
        m.forward_date ≠ none ∨ m.forward_origin ≠ none ∨
        m.is_automatic_forward = some true) := by
  rw [analyze_is_forwarded]
  simp only [Bool.or_eq_true, isSome_iff_ne_none, strTruthy_iff_exists,
    boolTruthy_iff, or_assoc]

/-- **C7.** A message whose only forwarding signal is
`is_automatic_forward = true` (no legacy fields, no modern origin, no forward
date) is reported as forwarded, with an absent `unique_identifier`. -/
theorem C7_automatic_forward_only (m : Message)
    (_h1 : m.forward_from = none) (_h2 : m.forward_from_chat = none)
    (_h3 : m.forward_sender_name = none) (h4 : m.forward_date = none)
    (h5 : m.forward_origin = none) (h6 : m.is_automatic_forward = some true) :
    (BotHybrid.analyze_forward_origin m).is_forwarded = true ∧
      (BotHybrid.analyze_forward_origin m).unique_identifier = none := by
  constructor
  · rw [analyze_is_forwarded]
    simp [h6, boolTruthy]
  · rw [analyze_unique_identifier]
    rw [analyze_origin_info_none m h5]
    simp [BotHybrid.mkIdentifier, emptyOriginInfo, intTruthy, strTruthy,
      pyOrStr, h4]

/-- Witness for C7: the concrete message carrying only
`is_automatic_forward = true`. -/
theorem C7_automatic_forward_only_witness :
    (BotHybrid.analyze_forward_origin
        ⟨none, none, none, none, some true, none⟩).is_forwarded = true ∧
      (BotHybrid.analyze_forward_origin
        ⟨none, none, none, none, some true, none⟩).unique_identifier = none :=
  C7_automatic_forward_only ⟨none, none, none, none, some true, none⟩
    rfl rfl rfl rfl rfl rfl

/-- **C3.** The modern-origin dispatch takes the first matching shape in the
strict priority order user > hidden-user > chat (even on inputs violating
exclusivity), populates exactly one identity-bearing field group, always
carries over the origin timestamp, and leaves every identity field absent
when no modern origin is present, regardless of legacy fields. -/
theorem C3_origin_dispatch_priority (m : Message) :
    (m.forward_origin = none →
      (BotHybrid.analyze_forward_origin m).origin_info = emptyOriginInfo) ∧
    (∀ fo, m.forward_origin = some fo →
      (∀ su, fo.sender_user = some su →
        (BotHybrid.analyze_forward_origin m).origin_info =
          { emptyOriginInfo with
            origin_type := fo.type
            origin_date := fo.date.map PyDatetime.isoformat
            origin_sender_user_id := some su.id
            origin_sender_name := some (fullName su)
            origin_sender_username := su.username }) ∧
      (fo.sender_user = none → ∀ n, fo.sender_user_name = some n → n ≠ "" →
        (BotHybrid.analyze_forward_origin m).origin_info =
          { emptyOriginInfo with
            origin_type := fo.type
            origin_date := fo.date.map PyDatetime.isoformat
            origin_sender_name := some n }) ∧
      (fo.sender_user = none → strTruthy fo.sender_user_name = false →
        ∀ c, fo.chat = some c →
        (BotHybrid.analyze_forward_origin m).origin_info =
          { emptyOriginInfo with
            origin_type := fo.type
            origin_date := fo.date.map PyDatetime.isoformat
            origin_chat_id := some c.id
            origin_chat_title := c.title
            origin_chat_username := c.username }) ∧
      (fo.sender_user = none → strTruthy fo.sender_user_name = false →
        fo.chat = none →
        (BotHybrid.analyze_forward_origin m).origin_info =
          { emptyOriginInfo with
            origin_type := fo.type
            origin_date := fo.date.map PyDatetime.isoformat })) := by
  constructor
  · intro h
    exact analyze_origin_info_none m h
  · intro fo hfo
    rw [analyze_origin_info_some m fo hfo]
    refine ⟨?_, ?_, ?_, ?_⟩
    · intro su hsu
      simp [BotHybrid.originInfoOf, hsu]
    · intro hsu n hn hne
      simp [BotHybrid.originInfoOf, hsu, hn, strTruthy_some, hne]
    · intro hsu hname c hc
      simp [BotHybrid.originInfoOf, hsu, hname, hc]
    · intro hsu hname hc
      simp [BotHybrid.originInfoOf, hsu, hname, hc]

/-- Witness for C3: a deliberately exclusivity-violating origin (all three
shapes present at once) resolves as a user origin, and a no-origin message
with legacy fields keeps every identity field absent. -/
theorem C3_origin_dispatch_priority_witness :
    (BotHybrid.analyze_forward_origin
        ⟨none, none, none, none, none,
          some ⟨some "user", some ⟨7, some "ana", some "Ana", none⟩,
            some "Oculto", some ⟨-9, some "Canal", none⟩,
            some ⟨2024, 3, 5, 10, 0, 0⟩⟩⟩).origin_info =
      { emptyOriginInfo with
        origin_type := some "user"
        origin_date := some "2024-03-05T10:00:00"
        origin_sender_user_id := some 7
        origin_sender_name := some "Ana"
        origin_sender_username := some "ana" } ∧
    (BotHybrid.analyze_forward_origin
        ⟨some ⟨5, some "tip", some "Tip", none⟩, none, none, none, none,
          none⟩).origin_info = emptyOriginInfo := by
  constructor
  · have h := (C3_origin_dispatch_priority
      ⟨none, none, none, none, none,
        some ⟨some "user", some ⟨7, some "ana", some "Ana", none⟩,
          some "Oculto", some ⟨-9, some "Canal", none⟩,
          some ⟨2024, 3, 5, 10, 0, 0⟩⟩⟩).2
    have h2 := ((h _ rfl).1 ⟨7, some "ana", some "Ana", none⟩ rfl)
    rw [h2]
    decide
  · exact (C3_origin_dispatch_priority
      ⟨some ⟨5, some "tip", some "Tip", none⟩, none, none, none, none,
        none⟩).1 rfl

/-- "Present" in the attribution chain of the spec: a value that exists and
is non-empty. -/
def presentStr : Option String → Option String
  | none => none
  | some s => if s = "" then none else some s

theorem presentStr_of_truthy (o : Option String) (h : strTruthy o = true) :
    presentStr o = some (o.getD "") := by
  rcases o with _ | s
  · simp [strTruthy] at h
  · simp only [strTruthy_some, Bool.not_eq_true', beq_eq_false_iff_ne, ne_eq] at h
    simp [presentStr, h]

theorem presentStr_of_falsy (o : Option String) (h : strTruthy o = false) :
    presentStr o = none := by
  rcases o with _ | s
  · rfl
  · simp only [strTruthy_some, Bool.not_eq_false', beq_iff_eq] at h
    simp [presentStr, h]

theorem presentStr_some_ne (o : Option String) (t : String)
    (h : presentStr o = some t) : t ≠ "" := by
  rcases o with _ | s
  · simp [presentStr] at h
  · rw [presentStr] at h
    by_cases hs : s = ""
    · simp [hs] at h
    · simp only [hs, if_false, Option.some.injEq] at h
      rw [← h]
      exact hs

theorem at_handle_ne_empty (h : String) : ("@" ++ h) ≠ "" := by
  rw [str_ne_empty_iff]
  exact List.cons_ne_nil _ _

/-- The attribution ("tipster name") chain as the spec states it: sentinel
for non-forwards, then first present value among modern chat title, modern
handle, modern display name, legacy chat title, legacy handle, legacy display
name, legacy free-text name, and a final unknown sentinel. -/
def tipsterNameSpec (fi : ForwardInfo) : String :=
  if fi.is_forwarded = false then "Usuario directo"
  else
    match presentStr fi.origin_info.origin_chat_title with
    | some title => title
    | none =>
    match presentStr fi.origin_info.origin_sender_username with
    | some handle => "@" ++ handle
    | none =>
    match presentStr fi.origin_info.origin_sender_name with
    | some nm => nm
    | none =>
    match presentStr (fi.legacy_chat.bind LegacyChat.title) with
    | some title => title
    | none =>
    match presentStr (fi.legacy_sender.bind LegacySender.username) with
    | some handle => "@" ++ handle
    | none =>
    match presentStr (fi.legacy_sender.map LegacySender.full_name) with
    | some nm => nm
    | none =>
    match presentStr fi.legacy_sender_name with
    | some nm => nm
    | none => "Tipster desconocido"

theorem get_tipster_name_eq_spec (fi : ForwardInfo) :
    BotHybrid.get_tipster_name fi = tipsterNameSpec fi := by
  rw [BotHybrid.get_tipster_name, tipsterNameSpec]
  cases hf : fi.is_forwarded
  · simp
  · simp only [Bool.not_true, Bool.false_eq_true, if_false]
    cases h1 : strTruthy fi.origin_info.origin_chat_title
    · rw [presentStr_of_falsy _ h1]
      simp only [h1, Bool.false_eq_true, if_false]
      cases h2 : strTruthy fi.origin_info.origin_sender_username
      · rw [presentStr_of_falsy _ h2]
        simp only [h2, Bool.false_eq_true, if_false]
        cases h3 : strTruthy fi.origin_info.origin_sender_name
        · rw [presentStr_of_falsy _ h3]
          simp only [h3, Bool.false_eq_true, if_false]
          cases h4 : strTruthy (fi.legacy_chat.bind LegacyChat.title)
          · rw [presentStr_of_falsy _ h4]
            simp only [h4, Bool.false_eq_true, if_false]
            cases h5 : strTruthy (fi.legacy_sender.bind LegacySender.username)
            · rw [presentStr_of_falsy _ h5]
              simp only [h5, Bool.false_eq_true, if_false]
              cases h6 : strTruthy (fi.legacy_sender.map LegacySender.full_name)
              · rw [presentStr_of_falsy _ h6]
                simp only [h6, Bool.false_eq_true, if_false]
                cases h7 : strTruthy fi.legacy_sender_name
                · rw [presentStr_of_falsy _ h7]
                  simp [h7]
                · rw [presentStr_of_truthy _ h7]
                  simp [h7]
              · rw [presentStr_of_truthy _ h6]
                simp [h6]
            · rw [presentStr_of_truthy _ h5]
              simp [h5]
          · rw [presentStr_of_truthy _ h4]
            simp [h4]
        · rw [presentStr_of_truthy _ h3]
          simp [h3]
      · rw [presentStr_of_truthy _ h2]
        simp [h2]
    · rw [presentStr_of_truthy _ h1]
      simp [h1]

theorem tipsterNameSpec_ne_empty (fi : ForwardInfo) : tipsterNameSpec fi ≠ "" := by
  rw [tipsterNameSpec]
  cases hf : fi.is_forwarded
  · rw [if_pos rfl]
    decide
  · rw [if_neg (by simp)]
    rcases e1 : presentStr fi.origin_info.origin_chat_title with _ | t
    case some => exact presentStr_some_ne _ _ e1
    rcases e2 : presentStr fi.origin_info.origin_sender_username with _ | t
    case some => exact at_handle_ne_empty t
    rcases e3 : presentStr fi.origin_info.origin_sender_name with _ | t
    case some => exact presentStr_some_ne _ _ e3
    rcases e4 : presentStr (fi.legacy_chat.bind LegacyChat.title) with _ | t
    case some => exact presentStr_some_ne _ _ e4
    rcases e5 : presentStr (fi.legacy_sender.bind LegacySender.username) with _ | t
    case some => exact at_handle_ne_empty t
    rcases e6 : presentStr (fi.legacy_sender.map LegacySender.full_name) with _ | t
    case some => exact presentStr_some_ne _ _ e6
    rcases e7 : presentStr fi.legacy_sender_name with _ | t
    case some => exact presentStr_some_ne _ _ e7
    decide

/-- **C4.** Both `_get_tipster_name` implementations return
`"Usuario directo"` for non-forwards and otherwise the first present
(non-empty) value in the priority order modern chat title > modern handle
(`"@handle"`) > modern display name > legacy chat title > legacy handle >
legacy display name > legacy free-text name > `"Tipster desconocido"`, and
the result is never empty. -/
theorem C4_tipster_name_priority (fi : ForwardInfo) :
    BotHybrid.get_tipster_name fi = tipsterNameSpec fi ∧
    BotNotion.get_tipster_name fi = tipsterNameSpec fi ∧
    BotHybrid.get_tipster_name fi ≠ "" ∧
    BotNotion.get_tipster_name fi ≠ "" := by
  have hsame : BotNotion.get_tipster_name fi = BotHybrid.get_tipster_name fi := rfl
  have heq := get_tipster_name_eq_spec fi
  have hne := tipsterNameSpec_ne_empty fi
  refine ⟨heq, hsame.trans heq, ?_, ?_⟩
  · rw [heq]
    exact hne
  · rw [hsame, heq]
    exact hne

theorem analyze_uid_hidden (m : Message) (fo : ForwardOrigin) (n : String)
    (d : PyDatetime) (hfo : m.forward_origin = some fo)
    (hsu : fo.sender_user = none) (hn : fo.sender_user_name = some n)
    (hne : n ≠ "") (hd : fo.date = some d) :
    (BotHybrid.analyze_forward_origin m).unique_identifier =
      some ("PRIVATE_" ++ nameHash8 n ++ "_" ++
        ("DATE_" ++ strSlice d.isoformat 10)) := by
  rw [analyze_unique_identifier]
  have hf : (BotHybrid.analyze_forward_origin m).is_forwarded = true := by
    rw [analyze_is_forwarded]
    simp [hfo]
  rw [hf, if_pos rfl, analyze_origin_info_some m fo hfo]
  have hoi : BotHybrid.originInfoOf fo =
      { emptyOriginInfo with
        origin_type := fo.type
        origin_date := some d.isoformat
        origin_sender_name := some n } := by
    rw [BotHybrid.originInfoOf]
    simp [hsu, hn, strTruthy_some, hne, hd]
  rw [hoi, BotHybrid.mkIdentifier]
  simp [intTruthy, strTruthy_some, hne, pyOrStr, isoformat_ne_empty d,
    joinUnderscore, emptyOriginInfo]

/-- **C5.** Two distinct messages forwarded from the same privacy-shielded
name, whose origin dates fall on the same calendar day, receive the same
`unique_identifier`; the `PRIVATE_` segment is a deterministic function of
the name's UTF-8 bytes, eight lower-case hex characters wide. -/
theorem C5_hidden_sender_identifier_stable
    (m1 m2 : Message) (fo1 fo2 : ForwardOrigin) (n : String)
    (d1 d2 : PyDatetime)
    (_hne : m1 ≠ m2)
    (h1 : m1.forward_origin = some fo1) (h2 : m2.forward_origin = some fo2)
    (hsu1 : fo1.sender_user = none) (hsu2 : fo2.sender_user = none)
    (hn1 : fo1.sender_user_name = some n) (hn2 : fo2.sender_user_name = some n)
    (hn : n ≠ "")
    (hd1 : fo1.date = some d1) (hd2 : fo2.date = some d2)
    (hday : strSlice d1.isoformat 10 = strSlice d2.isoformat 10) :
    (BotHybrid.analyze_forward_origin m1).unique_identifier =
      (BotHybrid.analyze_forward_origin m2).unique_identifier ∧
    (BotHybrid.analyze_forward_origin m1).unique_identifier =
      some ("PRIVATE_" ++ nameHash8 n ++ "_" ++
        ("DATE_" ++ strSlice d1.isoformat 10)) ∧
    (∀ n2 : String, strUtf8 n2 = strUtf8 n → nameHash8 n2 = nameHash8 n) ∧
    (nameHash8 n).length = 8 ∧
    (nameHash8 n).data.all isHexDigit = true := by
  have e1 := analyze_uid_hidden m1 fo1 n d1 h1 hsu1 hn1 hn hd1
  have e2 := analyze_uid_hidden m2 fo2 n d2 h2 hsu2 hn2 hn hd2
  refine ⟨?_, e1, ?_, nameHash8_length n, nameHash8_isHexDigit n⟩
  · rw [e1, e2, hday]
  · intro n2 hutf
    rw [nameHash8, nameHash8, hutf]

/-- The two concrete hidden-sender messages used to witness C5. -/
def hiddenMsgAt (hour minute : Nat) : Message :=
  ⟨none, none, none, none, none,
    some ⟨some "hidden_user", none, some "Juan Privado", none,
      some ⟨2024, 3, 5, hour, minute, 0⟩⟩⟩

/-- Witness for C5: two concrete distinct messages forwarded from the hidden
name "Juan Privado" at different times on 2024-03-05 get the same
identifier. -/
theorem C5_hidden_sender_identifier_stable_witness :
    (BotHybrid.analyze_forward_origin (hiddenMsgAt 10 0)).unique_identifier =
      (BotHybrid.analyze_forward_origin (hiddenMsgAt 22 30)).unique_identifier ∧
    (BotHybrid.analyze_forward_origin (hiddenMsgAt 10 0)).unique_identifier =
      some ("PRIVATE_" ++ nameHash8 "Juan Privado" ++ "_" ++
        ("DATE_" ++ strSlice (PyDatetime.isoformat ⟨2024, 3, 5, 10, 0, 0⟩) 10)) := by
  have h := C5_hidden_sender_identifier_stable (hiddenMsgAt 10 0)
    (hiddenMsgAt 22 30)
    ⟨some "hidden_user", none, some "Juan Privado", none,
      some ⟨2024, 3, 5, 10, 0, 0⟩⟩
    ⟨some "hidden_user", none, some "Juan Privado", none,
      some ⟨2024, 3, 5, 22, 30, 0⟩⟩
    "Juan Privado" ⟨2024, 3, 5, 10, 0, 0⟩ ⟨2024, 3, 5, 22, 30, 0⟩
    (by decide) rfl rfl rfl rfl rfl rfl (by decide) rfl rfl (by decide)
  exact ⟨h.1, h.2.1⟩

theorem strSlice_date_marker (x : String) :
    strSlice ("DATE_" ++ x) 5 = "DATE_" := by
  show String.mk ((("DATE_" : String).data ++ x.data).take 5) = "DATE_"
  rw [show (5 : Nat) = ("DATE_" : String).data.length from rfl, List.take_left]

set_option maxHeartbeats 1000000 in
/-- **C9.** A message carrying only legacy forwarding fields (no modern
origin) never receives a `USER_`/`PRIVATE_`/`CHAT_` identity segment: its
`unique_identifier` is exactly the `DATE_` rendering of the legacy
`forward_date` when present, absent otherwise — legacy ids are never used. -/
theorem C9_legacy_only_identifier (m : Message)
    (hfo : m.forward_origin = none)
    (hleg : m.forward_from ≠ none ∨ m.forward_from_chat ≠ none) :
    (BotHybrid.analyze_forward_origin m).unique_identifier =
      m.forward_date.map (fun d => "DATE_" ++ strSlice d.isoformat 10) ∧
    (∀ s, (BotHybrid.analyze_forward_origin m).unique_identifier = some s →
      strSlice s 5 = "DATE_") := by
  have hf : (BotHybrid.analyze_forward_origin m).is_forwarded = true := by
    rw [analyze_is_forwarded]
    rcases hleg with h | h <;> simp [isSome_iff_ne_none, h]
  have heq : (BotHybrid.analyze_forward_origin m).unique_identifier =
      m.forward_date.map (fun d => "DATE_" ++ strSlice d.isoformat 10) := by
    rw [analyze_unique_identifier, hf, if_pos rfl,
      analyze_origin_info_none m hfo, BotHybrid.mkIdentifier]
    rcases hd : m.forward_date with _ | d
    · simp [hd, emptyOriginInfo, intTruthy, strTruthy, pyOrStr]
    · simp [hd, emptyOriginInfo, intTruthy, strTruthy_some, pyOrStr,
        isoformat_ne_empty d, joinUnderscore]
  refine ⟨heq, ?_⟩
  intro s hs
  rw [heq] at hs
  rcases hd : m.forward_date with _ | d
  · rw [hd] at hs
    simp at hs
  · rw [hd] at hs
    simp only [Option.map_some', Option.some.injEq] at hs
    rw [← hs]
    exact strSlice_date_marker _

/-- Witness for C9: a legacy-only message (old-style chat plus forward date)
gets a pure `DATE_` identifier. -/
theorem C9_legacy_only_identifier_witness :
    (BotHybrid.analyze_forward_origin
        ⟨none, some ⟨-5, some "OldChannel", none⟩, none,
          some ⟨2024, 1, 1, 0, 0, 0⟩, none, none⟩).unique_identifier =
      (some ⟨2024, 1, 1, 0, 0, 0⟩ : Option PyDatetime).map
        (fun d => "DATE_" ++ strSlice d.isoformat 10) :=
  (C9_legacy_only_identifier
    ⟨none, some ⟨-5, some "OldChannel", none⟩, none,
      some ⟨2024, 1, 1, 0, 0, 0⟩, none, none⟩
    rfl (Or.inr (by decide))).1

theorem originInfoOf_main_eq (fo : ForwardOrigin) :
    BotMain.originInfoOf fo =
      { BotHybrid.originInfoOf fo with origin_type := none } := by
  rw [BotMain.originInfoOf, BotHybrid.originInfoOf]
  rcases fo.sender_user with _ | su
  · by_cases h : strTruthy fo.sender_user_name
    · simp [h, emptyOriginInfo]
    · rcases fo.chat with _ | c <;> simp [h, emptyOriginInfo]
  · simp [emptyOriginInfo]

theorem mkIdentifier_ignores_origin_type (oi : OriginInfo) (x : Option String)
    (fd : Option PyDatetime) :
    BotHybrid.mkIdentifier { oi with origin_type := x } fd =
      BotHybrid.mkIdentifier oi fd := rfl

theorem mkIdentifier_main_eq (oi : OriginInfo) (fd : Option PyDatetime) :
    BotMain.mkIdentifier oi fd = BotHybrid.mkIdentifier oi fd := by
  by_cases h1 : intTruthy oi.origin_sender_user_id
  · simp [BotMain.mkIdentifier, BotHybrid.mkIdentifier, h1]
  · by_cases h2 : strTruthy oi.origin_sender_name
    · have h2x : oi.origin_sender_name.getD "" ≠ "" := (strTruthy_iff _).mp h2
      simp [BotMain.mkIdentifier, BotHybrid.mkIdentifier, h1, h2, h2x]
    · simp [BotMain.mkIdentifier, BotHybrid.mkIdentifier, h1, h2]

/-- **C10 (amended).** The resolvers duplicated in bot_main.py and
bot_hybrid.py agree on every output component except the origin-type tag:
bot_hybrid.py records the modern origin's `type` in
`origin_info.origin_type`, bot_main.py never stores one. -/
theorem C10_resolvers_agree_up_to_origin_type (m : Message) :
    BotMain.analyze_forward_origin m =
      { BotHybrid.analyze_forward_origin m with
        origin_info :=
          { (BotHybrid.analyze_forward_origin m).origin_info with
            origin_type := none } } := by
  rcases hfo : m.forward_origin with _ | fo
  · simp only [BotMain.analyze_forward_origin, BotHybrid.analyze_forward_origin,
      hfo, mkIdentifier_main_eq, emptyOriginInfo]
  · simp only [BotMain.analyze_forward_origin, BotHybrid.analyze_forward_origin,
      hfo, originInfoOf_main_eq, mkIdentifier_main_eq,
      mkIdentifier_ignores_origin_type]

/-- The concrete modern-origin message on which the two resolvers disagree. -/
def userOriginMsg : Message :=
  ⟨none, none, none, none, none,
    some ⟨some "user", some ⟨42, some "ana_tip", some "Ana", none⟩, none, none,
      some ⟨2024, 3, 5, 10, 0, 0⟩⟩⟩

/-- **C10 (counterexample).** The two `_analyze_forward_origin` duplicates do
not return structurally equal records: on a modern user-origin message
bot_hybrid.py stores `origin_type = "user"` while bot_main.py stores
nothing. -/
theorem C10_resolvers_not_identical :
    BotMain.analyze_forward_origin userOriginMsg ≠
      BotHybrid.analyze_forward_origin userOriginMsg ∧
    (BotMain.analyze_forward_origin userOriginMsg).origin_info.origin_type =
      none ∧
    (BotHybrid.analyze_forward_origin userOriginMsg).origin_info.origin_type =
      some "user" := by
  refine ⟨?_, rfl, rfl⟩
  decide

/-! ## C6: notification formatter tiers -/

theorem append_ne_empty_of_left (s t : String) (h : s ≠ "") : s ++ t ≠ "" := by
  rw [str_ne_empty_iff] at h ⊢
  rw [str_data_append]
  intro hc
  exact h (List.append_eq_nil.mp hc).1

/-- Tier-1 guard: the forward carries a concrete sender id. -/
def userTier (fi : ForwardInfo) : Bool :=
  intTruthy fi.origin_info.origin_sender_user_id

/-- Tier-2 guard: no sender id, but a (hidden-sender) display name. -/
def hiddenTier (fi : ForwardInfo) : Bool :=
  !userTier fi && strTruthy fi.origin_info.origin_sender_name

/-- Tier-3 guard: no modern sender information, but an origin chat id. -/
def chatTier (fi : ForwardInfo) : Bool :=
  !userTier fi && !strTruthy fi.origin_info.origin_sender_name &&
    intTruthy fi.origin_info.origin_chat_id

/-- Hybrid tier-4c guard: only a legacy free-text sender name is left. -/
def legacyNameTier (fi : ForwardInfo) : Bool :=
  !userTier fi && !strTruthy fi.origin_info.origin_sender_name &&
    !intTruthy fi.origin_info.origin_chat_id && fi.legacy_sender.isNone &&
    fi.legacy_chat.isNone && strTruthy fi.legacy_sender_name

/-- bot_main.py's final generic fallback guard: no modern information and no
legacy sender block. -/
def mainGenericTier (fi : ForwardInfo) : Bool :=
  !userTier fi && !strTruthy fi.origin_info.origin_sender_name &&
    !intTruthy fi.origin_info.origin_chat_id && fi.legacy_sender.isNone

/-- Blank every field a tier below the sender-with-id tier could read. -/
def stripBelowUser (fi : ForwardInfo) : ForwardInfo :=
  { fi with
    origin_info :=
      { fi.origin_info with
        origin_chat_id := none
        origin_chat_title := none
        origin_chat_username := none }
    legacy_sender := none
    legacy_chat := none
    legacy_sender_name := none
    unique_identifier := none }

/-- Blank every field a tier below the hidden-sender tier could read. -/
def stripBelowHidden (fi : ForwardInfo) : ForwardInfo :=
  { fi with
    origin_info :=
      { fi.origin_info with
        origin_chat_id := none
        origin_chat_title := none
        origin_chat_username := none }
    legacy_sender := none
    legacy_chat := none
    legacy_sender_name := none }

/-- Blank every field a tier below the origin-chat tier could read. -/
def stripBelowChat (fi : ForwardInfo) : ForwardInfo :=
  { fi with
    legacy_sender := none
    legacy_chat := none
    legacy_sender_name := none
    unique_identifier := none }

theorem hybrid_format_ne_empty (fi : ForwardInfo) (hf : fi.is_forwarded = true) :
    BotHybrid.format_forward_response fi ≠ "" := by
  rw [BotHybrid.format_forward_response, hf]
  simp only [Bool.not_true, Bool.false_eq_true, if_false]
  repeat' split
  all_goals repeat apply append_ne_empty_of_left
  all_goals decide

theorem main_format_ne_empty (fi : ForwardInfo) (hf : fi.is_forwarded = true) :
    BotMain.format_forward_response fi ≠ "" := by
  rw [BotMain.format_forward_response, hf]
  simp only [Bool.not_true, Bool.false_eq_true, if_false]
  repeat' split
  all_goals repeat apply append_ne_empty_of_left
  all_goals decide

theorem hybrid_format_empty (fi : ForwardInfo) (hf : fi.is_forwarded = false) :
    BotHybrid.format_forward_response fi = "" := by
  rw [BotHybrid.format_forward_response, hf]
  rfl

theorem main_format_empty (fi : ForwardInfo) (hf : fi.is_forwarded = false) :
    BotMain.format_forward_response fi = "" := by
  rw [BotMain.format_forward_response, hf]
  rfl


theorem privado_id_fold (x : String) :
    " (privado)" ++ ("\n🆔 ID: " ++ x) = " (privado)\n🆔 ID: " ++ x := by
  rw [← String.append_assoc]
  rfl

theorem hybrid_format_id_placement (fi : ForwardInfo) (hf : fi.is_forwarded = true) :
    BotHybrid.format_forward_response fi =
      BotHybrid.format_forward_response { fi with unique_identifier := none } ++
        (if (hiddenTier fi || legacyNameTier fi) && strTruthy fi.unique_identifier
         then "\n🆔 ID: " ++ fi.unique_identifier.getD "" else "") := by
  by_cases h1 : intTruthy fi.origin_info.origin_sender_user_id
  · simp [BotHybrid.format_forward_response, hf, userTier, hiddenTier,
      legacyNameTier, h1, String.append_empty]
  · by_cases h2 : strTruthy fi.origin_info.origin_sender_name
    · by_cases hu : strTruthy fi.unique_identifier
      · simp [BotHybrid.format_forward_response, hf, userTier, hiddenTier,
          legacyNameTier, h1, h2, hu, String.append_assoc, strTruthy_none,
          privado_id_fold]
      · simp [BotHybrid.format_forward_response, hf, userTier, hiddenTier,
          legacyNameTier, h1, h2, hu, String.append_empty, strTruthy_none]
    · by_cases h3 : intTruthy fi.origin_info.origin_chat_id
      · simp [BotHybrid.format_forward_response, hf, userTier, hiddenTier,
          legacyNameTier, h1, h2, h3, String.append_empty]
      · rcases hls : fi.legacy_sender with _ | ls
        · rcases hlc : fi.legacy_chat with _ | lc
          · by_cases hn : strTruthy fi.legacy_sender_name
            · by_cases hu : strTruthy fi.unique_identifier
              · simp [BotHybrid.format_forward_response, hf, userTier, hiddenTier,
                  legacyNameTier, h1, h2, h3, hls, hlc, hn, hu, String.append_assoc,
                  strTruthy_none, privado_id_fold]
              · simp [BotHybrid.format_forward_response, hf, userTier, hiddenTier,
                  legacyNameTier, h1, h2, h3, hls, hlc, hn, hu, String.append_empty,
                  strTruthy_none]
            · simp [BotHybrid.format_forward_response, hf, userTier, hiddenTier,
                legacyNameTier, h1, h2, h3, hls, hlc, hn, String.append_empty]
          · simp [BotHybrid.format_forward_response, hf, userTier, hiddenTier,
              legacyNameTier, h1, h2, h3, hls, hlc, String.append_empty]
        · simp [BotHybrid.format_forward_response, hf, userTier, hiddenTier,
            legacyNameTier, h1, h2, h3, hls, String.append_empty]

theorem main_format_id_placement (fi : ForwardInfo) (hf : fi.is_forwarded = true) :
    BotMain.format_forward_response fi =
      (if mainGenericTier fi && strTruthy fi.unique_identifier then
        "\n\n🔄 **Mensaje reenviado**\n📝 ID único: " ++
          fi.unique_identifier.getD ""
       else BotMain.format_forward_response
        { fi with unique_identifier := none }) := by
  by_cases h1 : intTruthy fi.origin_info.origin_sender_user_id
  · simp [BotMain.format_forward_response, hf, userTier, mainGenericTier, h1]
  · by_cases h2 : strTruthy fi.origin_info.origin_sender_name
    · simp [BotMain.format_forward_response, hf, userTier, mainGenericTier, h1, h2]
    · by_cases h3 : intTruthy fi.origin_info.origin_chat_id
      · simp [BotMain.format_forward_response, hf, userTier, mainGenericTier,
          h1, h2, h3]
      · rcases hls : fi.legacy_sender with _ | ls
        · by_cases hu : strTruthy fi.unique_identifier
          · rcases hu2 : fi.unique_identifier with _ | u
            · rw [hu2] at hu
              simp [strTruthy] at hu
            · rw [hu2] at hu
              simp only [strTruthy_some, Bool.not_eq_true', beq_eq_false_iff_ne,
                ne_eq] at hu
              simp [BotMain.format_forward_response, hf, userTier, mainGenericTier,
                h1, h2, h3, hls, hu2, hu, pyOrStr, pyStr, strTruthy_some]
          · rcases hu2 : fi.unique_identifier with _ | u
            · simp [BotMain.format_forward_response, hf, userTier, mainGenericTier,
                h1, h2, h3, hls, hu2, pyOrStr, pyStr, strTruthy]
            · rw [hu2] at hu
              simp [strTruthy_some] at hu
              simp [BotMain.format_forward_response, hf, userTier, mainGenericTier,
                h1, h2, h3, hls, hu2, hu, pyOrStr, pyStr, strTruthy]
        · simp [BotMain.format_forward_response, hf, userTier, mainGenericTier,
            h1, h2, h3, hls]

theorem hybrid_tier_user (fi : ForwardInfo) (h : userTier fi = true) :
    BotHybrid.format_forward_response fi =
      BotHybrid.format_forward_response (stripBelowUser fi) := by
  rw [userTier] at h
  cases hf : fi.is_forwarded
  · simp [BotHybrid.format_forward_response, stripBelowUser, hf]
  · simp [BotHybrid.format_forward_response, stripBelowUser, hf, h]

theorem hybrid_tier_hidden (fi : ForwardInfo) (h : hiddenTier fi = true) :
    BotHybrid.format_forward_response fi =
      BotHybrid.format_forward_response (stripBelowHidden fi) := by
  rw [hiddenTier, Bool.and_eq_true, userTier, Bool.not_eq_true'] at h
  obtain ⟨hu, hn⟩ := h
  cases hf : fi.is_forwarded
  · simp [BotHybrid.format_forward_response, stripBelowHidden, hf]
  · simp [BotHybrid.format_forward_response, stripBelowHidden, hf, hu, hn]

theorem hybrid_tier_chat (fi : ForwardInfo) (h : chatTier fi = true) :
    BotHybrid.format_forward_response fi =
      BotHybrid.format_forward_response (stripBelowChat fi) := by
  rw [chatTier, Bool.and_eq_true, Bool.and_eq_true, userTier,
    Bool.not_eq_true', Bool.not_eq_true'] at h
  obtain ⟨⟨hu, hn⟩, hc⟩ := h
  cases hf : fi.is_forwarded
  · simp [BotHybrid.format_forward_response, stripBelowChat, hf]
  · simp [BotHybrid.format_forward_response, stripBelowChat, hf, hu, hn, hc]

theorem main_tier_user (fi : ForwardInfo) (h : userTier fi = true) :
    BotMain.format_forward_response fi =
      BotMain.format_forward_response (stripBelowUser fi) := by
  rw [userTier] at h
  cases hf : fi.is_forwarded
  · simp [BotMain.format_forward_response, stripBelowUser, hf]
  · simp [BotMain.format_forward_response, stripBelowUser, hf, h]

theorem main_tier_hidden (fi : ForwardInfo) (h : hiddenTier fi = true) :
    BotMain.format_forward_response fi =
      BotMain.format_forward_response (stripBelowHidden fi) := by
  rw [hiddenTier, Bool.and_eq_true, userTier, Bool.not_eq_true'] at h
  obtain ⟨hu, hn⟩ := h
  cases hf : fi.is_forwarded
  · simp [BotMain.format_forward_response, stripBelowHidden, hf]
  · simp [BotMain.format_forward_response, stripBelowHidden, hf, hu, hn]

theorem main_tier_chat (fi : ForwardInfo) (h : chatTier fi = true) :
    BotMain.format_forward_response fi =
      BotMain.format_forward_response (stripBelowChat fi) := by
  rw [chatTier, Bool.and_eq_true, Bool.and_eq_true, userTier,
    Bool.not_eq_true', Bool.not_eq_true'] at h
  obtain ⟨⟨hu, hn⟩, hc⟩ := h
  cases hf : fi.is_forwarded
  · simp [BotMain.format_forward_response, stripBelowChat, hf]
  · simp [BotMain.format_forward_response, stripBelowChat, hf, hu, hn, hc]

/-- Prefix test on character lists. -/
def startsWithList : List Char → List Char → Bool
  | [], _ => true
  | _ :: _, [] => false
  | p :: ps, c :: cs => p == c && startsWithList ps cs

/-- `subOccurs pat l` holds iff `pat` occurs contiguously inside `l`. -/
def subOccurs (pat : List Char) : List Char → Bool
  | [] => pat.isEmpty
  | c :: rest => startsWithList pat (c :: rest) || subOccurs pat rest

/-- A hidden-sender-name `ForwardInfo` whose `unique_identifier` is present:
the input on which the two formatter variants disagree about id placement. -/
def hiddenFwdInfo : ForwardInfo :=
  { is_forwarded := true
    forward_date := none
    is_automatic_forward := none
    unique_identifier := some "PRIVATE_abcd1234_DATE_2024-03-05"
    origin_info := { emptyOriginInfo with origin_sender_name := some "Juan Privado" }
    legacy_sender := none
    legacy_chat := none
    legacy_sender_name := none }

/-- **C6 (counterexample).** On a forwarded hidden-sender-name record with a
present `unique_identifier`, bot_main.py's `_format_forward_response` output
does not contain the identifier at all — the claim that `formatNotification`
appends it on a second line in the hidden-sender-name case fails for this
cited implementation. -/
theorem C6_main_formatter_drops_hidden_id :
    hiddenFwdInfo.is_forwarded = true ∧
    intTruthy hiddenFwdInfo.origin_info.origin_sender_user_id = false ∧
    strTruthy hiddenFwdInfo.origin_info.origin_sender_name = true ∧
    hiddenFwdInfo.unique_identifier = some "PRIVATE_abcd1234_DATE_2024-03-05" ∧
    subOccurs "PRIVATE_abcd1234_DATE_2024-03-05".data
      (BotMain.format_forward_response hiddenFwdInfo).data = false ∧
    BotMain.format_forward_response hiddenFwdInfo =
      "\n\n🔄 **Mensaje reenviado**\n👤 Usuario: Juan Privado (perfil privado)" := by
  refine ⟨rfl, rfl, rfl, rfl, by decide, rfl⟩

/-- **C6 (amended).** Both formatters return "" exactly for non-forwards and
something non-empty for forwards, select among four tiers in the priority
order sender-with-id > hidden-sender-name > origin-chat > legacy fallbacks
(higher-tier output is unaffected by lower-tier fields), and handle the
`unique_identifier` as follows: bot_hybrid.py appends it on a second line,
when present, in the hidden-sender-name and legacy-name cases only, while
bot_main.py shows it only in its final generic fallback tier. -/
theorem C6_format_notification_contract (fi : ForwardInfo) :
    (fi.is_forwarded = false →
      BotHybrid.format_forward_response fi = "" ∧
      BotMain.format_forward_response fi = "") ∧
    (fi.is_forwarded = true →
      BotHybrid.format_forward_response fi ≠ "" ∧
      BotMain.format_forward_response fi ≠ "" ∧
      BotHybrid.format_forward_response fi =
        BotHybrid.format_forward_response { fi with unique_identifier := none } ++
          (if (hiddenTier fi || legacyNameTier fi) &&
              strTruthy fi.unique_identifier then
            "\n🆔 ID: " ++ fi.unique_identifier.getD ""
          else "") ∧
      BotMain.format_forward_response fi =
        (if mainGenericTier fi && strTruthy fi.unique_identifier then
          "\n\n🔄 **Mensaje reenviado**\n📝 ID único: " ++
            fi.unique_identifier.getD ""
        else BotMain.format_forward_response
          { fi with unique_identifier := none })) ∧
    (userTier fi = true →
      BotHybrid.format_forward_response fi =
        BotHybrid.format_forward_response (stripBelowUser fi) ∧
      BotMain.format_forward_response fi =
        BotMain.format_forward_response (stripBelowUser fi)) ∧
    (hiddenTier fi = true →
      BotHybrid.format_forward_response fi =
        BotHybrid.format_forward_response (stripBelowHidden fi) ∧
      BotMain.format_forward_response fi =
        BotMain.format_forward_response (stripBelowHidden fi)) ∧
    (chatTier fi = true →
      BotHybrid.format_forward_response fi =
        BotHybrid.format_forward_response (stripBelowChat fi) ∧
      BotMain.format_forward_response fi =
        BotMain.format_forward_response (stripBelowChat fi)) :=
  ⟨fun hf => ⟨hybrid_format_empty fi hf, main_format_empty fi hf⟩,
   fun hf => ⟨hybrid_format_ne_empty fi hf, main_format_ne_empty fi hf,
     hybrid_format_id_placement fi hf, main_format_id_placement fi hf⟩,
   fun h => ⟨hybrid_tier_user fi h, main_tier_user fi h⟩,
   fun h => ⟨hybrid_tier_hidden fi h, main_tier_hidden fi h⟩,
   fun h => ⟨hybrid_tier_chat fi h, main_tier_chat fi h⟩⟩

/-- Witness for the amended C6, at the concrete hidden-sender record with a
present identifier. -/
theorem C6_format_notification_contract_witness :
    BotHybrid.format_forward_response hiddenFwdInfo ≠ "" ∧
    BotHybrid.format_forward_response hiddenFwdInfo =
      BotHybrid.format_forward_response
          { hiddenFwdInfo with unique_identifier := none } ++
        (if (hiddenTier hiddenFwdInfo || legacyNameTier hiddenFwdInfo) &&
            strTruthy hiddenFwdInfo.unique_identifier then
          "\n🆔 ID: " ++ hiddenFwdInfo.unique_identifier.getD ""
        else "") :=
  ⟨((C6_format_notification_contract hiddenFwdInfo).2.1 rfl).1,
   ((C6_format_notification_contract hiddenFwdInfo).2.1 rfl).2.2.1⟩


/-! ## C8: totality (an explicit error-monad model of the Python accesses) -/

/-- A Python attribute access / subscript on a possibly-`None` value:
raises when the value is absent. -/
def unwrapO {α : Type} (o : Option α) : Except String α :=
  match o with
  | some a => Except.ok a
  | none => Except.error "AttributeError"

theorem unwrapO_of_strTruthy (o : Option String) (h : strTruthy o = true) :
    unwrapO o = Except.ok (o.getD "") := by
  rcases o with _ | s
  · simp [strTruthy] at h
  · rfl

theorem unwrapO_of_intTruthy (o : Option Int) (h : intTruthy o = true) :
    unwrapO o = Except.ok (o.getD 0) := by
  rcases o with _ | n
  · simp [intTruthy] at h
  · rfl

theorem bind_ite {α β : Type} (c : Prop) [Decidable c]
    (x y : Except String α) (k : α → Except String β) :
    ((if c then x else y) >>= k) = if c then x >>= k else y >>= k := by
  by_cases h : c <;> simp [h]

/-- The identifier construction over an already-rendered date fallback
string; `BotHybrid.mkIdentifier` is this applied to the mapped
`forward_date`. -/
def mkIdentifierF (origin_info : OriginInfo) (fallback : Option String) :
    Option String :=
  let identifier_parts : List String :=
    if intTruthy origin_info.origin_sender_user_id then
      ["USER_" ++ toString (origin_info.origin_sender_user_id.getD 0)]
    else if strTruthy origin_info.origin_sender_name then
      ["PRIVATE_" ++ nameHash8 (origin_info.origin_sender_name.getD "")]
    else if intTruthy origin_info.origin_chat_id then
      ["CHAT_" ++ toString (origin_info.origin_chat_id.getD 0)]
    else []
  let date_str := pyOrStr origin_info.origin_date fallback
  let identifier_parts := identifier_parts ++
    (if strTruthy date_str then ["DATE_" ++ strSlice (date_str.getD "") 10]
     else [])
  if identifier_parts.isEmpty then none
  else some (joinUnderscore identifier_parts)

theorem mkIdentifierF_eq (oi : OriginInfo) (fd : Option PyDatetime) :
    mkIdentifierF oi (fd.map PyDatetime.isoformat) =
      BotHybrid.mkIdentifier oi fd := rfl

theorem pure_eq_ok {α : Type} (a : α) :
    (pure a : Except String α) = Except.ok a := rfl

theorem ok_bind {α β : Type} (a : α) (k : α → Except String β) :
    (Except.ok a : Except String α) >>= k = k a := rfl

/-- A guarded Python access `f(value) if value else None` in the error
monad: the dereference happens only under the truthiness guard. -/
def guardedMapE {α β : Type} (o : Option α) (f : α → β) :
    Except String (Option β) :=
  if o.isSome then do
    let a ← unwrapO o
    pure (some (f a))
  else pure none

theorem guardedMapE_ok {α β : Type} (o : Option α) (f : α → β) :
    guardedMapE o f = Except.ok (o.map f) := by
  rcases o <;> rfl

namespace BotHybrid

/-- `_analyze_forward_origin` (bot_hybrid.py) with every Python attribute
dereference of a possibly-`None` value made explicit in the error monad. -/
def analyze_forward_originE (message : Message) : Except String ForwardInfo := do
  let forward_from := message.forward_from
  let forward_from_chat := message.forward_from_chat
  let forward_sender_name := message.forward_sender_name
  let forward_date := message.forward_date
  let is_automatic_forward := message.is_automatic_forward
  let forward_origin := message.forward_origin
  let origin_info ←
    if forward_origin.isSome then do
      let fo ← unwrapO forward_origin
      let oi : OriginInfo := { emptyOriginInfo with origin_type := fo.type }
      let oi ←
        if fo.sender_user.isSome then do
          let sender_user ← unwrapO fo.sender_user
          pure { oi with
            origin_sender_user_id := some sender_user.id
            origin_sender_name := some (fullName sender_user)
            origin_sender_username := sender_user.username }
        else if strTruthy fo.sender_user_name then
          pure { oi with origin_sender_name := fo.sender_user_name }
        else if fo.chat.isSome then do
          let chat ← unwrapO fo.chat
          pure { oi with
            origin_chat_id := some chat.id
            origin_chat_title := chat.title
            origin_chat_username := chat.username }
        else pure oi
      if fo.date.isSome then do
        let origin_date ← unwrapO fo.date
        pure { oi with origin_date := some origin_date.isoformat }
      else pure oi
    else pure emptyOriginInfo
  let forward_date_iso ← guardedMapE forward_date PyDatetime.isoformat
  let is_forwarded :=
    forward_from.isSome || forward_from_chat.isSome ||
      strTruthy forward_sender_name || forward_date.isSome ||
      forward_origin.isSome || boolTruthy is_automatic_forward
  let unique_identifier :=
    if is_forwarded then mkIdentifierF origin_info forward_date_iso else none
  let legacy_sender ← guardedMapE forward_from fun u =>
    (⟨u.id, u.username, fullName u⟩ : LegacySender)
  let legacy_chat ← guardedMapE forward_from_chat fun c =>
    (⟨c.id, c.title, c.username⟩ : LegacyChat)
  pure
    { is_forwarded := is_forwarded
      forward_date := forward_date_iso
      is_automatic_forward := is_automatic_forward
      unique_identifier := unique_identifier
      origin_info := origin_info
      legacy_sender := legacy_sender
      legacy_chat := legacy_chat
      legacy_sender_name :=
        if strTruthy forward_sender_name then forward_sender_name else none }

end BotHybrid

theorem analyzeE_ok (m : Message) :
    BotHybrid.analyze_forward_originE m =
      Except.ok (BotHybrid.analyze_forward_origin m) := by
  rcases m with ⟨ff, ffc, fsn, fd, iaf, fo⟩
  rcases fo with _ | ⟨ty, su, sun, ch, dt⟩
  · simp [BotHybrid.analyze_forward_originE, BotHybrid.analyze_forward_origin,
      guardedMapE_ok, ok_bind, pure_eq_ok, mkIdentifierF_eq, emptyOriginInfo]
  · rcases su with _ | su'
    · by_cases hsun : strTruthy sun
      · rcases dt with _ | d' <;>
          simp [BotHybrid.analyze_forward_originE,
            BotHybrid.analyze_forward_origin, BotHybrid.originInfoOf,
            guardedMapE_ok, ok_bind, pure_eq_ok, mkIdentifierF_eq,
            emptyOriginInfo, unwrapO, hsun]
      · rcases ch with _ | ch' <;> rcases dt with _ | d' <;>
          simp [BotHybrid.analyze_forward_originE,
            BotHybrid.analyze_forward_origin, BotHybrid.originInfoOf,
            guardedMapE_ok, ok_bind, pure_eq_ok, mkIdentifierF_eq,
            emptyOriginInfo, unwrapO, hsun]
    · rcases dt with _ | d' <;>
        simp [BotHybrid.analyze_forward_originE,
          BotHybrid.analyze_forward_origin, BotHybrid.originInfoOf,
          guardedMapE_ok, ok_bind, pure_eq_ok, mkIdentifierF_eq,
          emptyOriginInfo, unwrapO]

namespace BotHybrid

/-- `_get_tipster_name` (bot_hybrid.py) with every guarded dictionary read
of a possibly-absent value made explicit in the error monad. -/
def get_tipster_nameE (forward_info : ForwardInfo) : Except String String := do
  if !forward_info.is_forwarded then pure "Usuario directo"
  else
    let origin := forward_info.origin_info
    if strTruthy origin.origin_chat_title then do
      let t ← unwrapO origin.origin_chat_title
      pure t
    else if strTruthy origin.origin_sender_username then do
      let u ← unwrapO origin.origin_sender_username
      pure ("@" ++ u)
    else if strTruthy origin.origin_sender_name then do
      let n ← unwrapO origin.origin_sender_name
      pure n
    else
      let legacy_chat := forward_info.legacy_chat
      let legacy_sender := forward_info.legacy_sender
      let legacy_name := forward_info.legacy_sender_name
      if strTruthy (legacy_chat.bind LegacyChat.title) then do
        let t ← unwrapO (legacy_chat.bind LegacyChat.title)
        pure t
      else if strTruthy (legacy_sender.bind LegacySender.username) then do
        let u ← unwrapO (legacy_sender.bind LegacySender.username)
        pure ("@" ++ u)
      else if strTruthy (legacy_sender.map LegacySender.full_name) then do
        let n ← unwrapO (legacy_sender.map LegacySender.full_name)
        pure n
      else if strTruthy legacy_name then do
        let n ← unwrapO legacy_name
        pure n
      else pure "Tipster desconocido"

/-- `_format_forward_response` (bot_hybrid.py) with the guarded
`origin_info` subscripts made explicit in the error monad. -/
def format_forward_responseE (forward_info : ForwardInfo) :
    Except String String := do
  if !forward_info.is_forwarded then pure ""
  else
    let origin := forward_info.origin_info
    let unique_id := forward_info.unique_identifier
    if intTruthy origin.origin_sender_user_id then do
      let user_id ← unwrapO origin.origin_sender_user_id
      let username := origin.origin_sender_username
      let name := origin.origin_sender_name
      if strTruthy username then
        pure ("\n🔄 Reenviado de: @" ++ username.getD "" ++ " (ID: " ++
          toString user_id ++ ")")
      else
        pure ("\n🔄 Reenviado de: " ++ pyStr name ++ " (ID: " ++
          toString user_id ++ ")")
    else if strTruthy origin.origin_sender_name then do
      let name ← unwrapO origin.origin_sender_name
      let response := "\n🔄 Reenviado de: " ++ name ++ " (privado)"
      if strTruthy unique_id then
        pure (response ++ "\n🆔 ID: " ++ unique_id.getD "")
      else pure response
    else if intTruthy origin.origin_chat_id then do
      let chat_id ← unwrapO origin.origin_chat_id
      let title := origin.origin_chat_title
      let username := origin.origin_chat_username
      if strTruthy username then
        pure ("\n🔄 Reenviado del canal: @" ++ username.getD "" ++ " (ID: " ++
          toString chat_id ++ ")")
      else
        pure ("\n🔄 Reenviado de: " ++ (pyOrStr title (some "Canal")).getD "" ++
          " (ID: " ++ toString chat_id ++ ")")
    else
      match forward_info.legacy_sender with
      | some ls =>
        if strTruthy ls.username then
          pure ("\n🔄 Reenviado de: @" ++ ls.username.getD "" ++ " (ID: " ++
            toString ls.user_id ++ ")")
        else
          pure ("\n🔄 Reenviado de: " ++ ls.full_name ++ " (ID: " ++
            toString ls.user_id ++ ")")
      | none =>
        match forward_info.legacy_chat with
        | some lc =>
          if strTruthy lc.username then
            pure ("\n🔄 Reenviado del canal: @" ++ lc.username.getD "" ++
              " (ID: " ++ toString lc.chat_id ++ ")")
          else
            pure ("\n🔄 Reenviado de: " ++ pyStr lc.title ++ " (ID: " ++
              toString lc.chat_id ++ ")")
        | none =>
          if strTruthy forward_info.legacy_sender_name then
            let response := "\n🔄 Reenviado de: " ++
              forward_info.legacy_sender_name.getD "" ++ " (privado)"
            if strTruthy unique_id then
              pure (response ++ "\n🆔 ID: " ++ unique_id.getD "")
            else pure response
          else pure "\n🔄 Mensaje reenviado"

end BotHybrid

theorem ite_ok {α : Type} (c : Prop) [inst : Decidable c] (a b : α) :
    (if c then (Except.ok a : Except String α) else Except.ok b) =
      Except.ok (if c then a else b) := by
  by_cases h : c <;> simp [h]

theorem tipsterE_ok (fi : ForwardInfo) :
    BotHybrid.get_tipster_nameE fi =
      Except.ok (BotHybrid.get_tipster_name fi) := by
  simp only [BotHybrid.get_tipster_nameE, BotHybrid.get_tipster_name]
  cases hf : fi.is_forwarded
  · simp [pure_eq_ok]
  · simp only [Bool.not_true, Bool.false_eq_true, if_false]
    by_cases h1 : strTruthy fi.origin_info.origin_chat_title
    · simp [h1, unwrapO_of_strTruthy _ h1, pure_eq_ok, ok_bind]
    · by_cases h2 : strTruthy fi.origin_info.origin_sender_username
      · simp [h1, h2, unwrapO_of_strTruthy _ h2, pure_eq_ok, ok_bind]
      · by_cases h3 : strTruthy fi.origin_info.origin_sender_name
        · simp [h1, h2, h3, unwrapO_of_strTruthy _ h3, pure_eq_ok, ok_bind]
        · by_cases h4 : strTruthy (fi.legacy_chat.bind LegacyChat.title)
          · simp [h1, h2, h3, h4, unwrapO_of_strTruthy _ h4, pure_eq_ok, ok_bind]
          · by_cases h5 : strTruthy (fi.legacy_sender.bind LegacySender.username)
            · simp [h1, h2, h3, h4, h5, unwrapO_of_strTruthy _ h5, pure_eq_ok,
                ok_bind]
            · by_cases h6 : strTruthy (fi.legacy_sender.map LegacySender.full_name)
              · simp [h1, h2, h3, h4, h5, h6, unwrapO_of_strTruthy _ h6,
                  pure_eq_ok, ok_bind]
              · by_cases h7 : strTruthy fi.legacy_sender_name
                · simp [h1, h2, h3, h4, h5, h6, h7, unwrapO_of_strTruthy _ h7,
                    pure_eq_ok, ok_bind]
                · simp [h1, h2, h3, h4, h5, h6, h7, pure_eq_ok]

theorem formatE_ok (fi : ForwardInfo) :
    BotHybrid.format_forward_responseE fi =
      Except.ok (BotHybrid.format_forward_response fi) := by
  simp only [BotHybrid.format_forward_responseE, BotHybrid.format_forward_response]
  cases hf : fi.is_forwarded
  · simp [pure_eq_ok, ite_ok]
  · simp only [Bool.not_true, Bool.false_eq_true, if_false]
    by_cases h1 : intTruthy fi.origin_info.origin_sender_user_id
    · simp [h1, unwrapO_of_intTruthy _ h1, pure_eq_ok, ok_bind, ite_ok]
    · by_cases h2 : strTruthy fi.origin_info.origin_sender_name
      · simp [h1, h2, unwrapO_of_strTruthy _ h2, pure_eq_ok, ok_bind, ite_ok]
      · by_cases h3 : intTruthy fi.origin_info.origin_chat_id
        · simp [h1, h2, h3, unwrapO_of_intTruthy _ h3, pure_eq_ok, ok_bind, ite_ok]
        · rcases hls : fi.legacy_sender with _ | ls
          · rcases hlc : fi.legacy_chat with _ | lc
            · simp [h1, h2, h3, hls, hlc, pure_eq_ok, ite_ok]
            · simp [h1, h2, h3, hls, hlc, pure_eq_ok, ite_ok]
          · simp [h1, h2, h3, hls, pure_eq_ok, ite_ok]

/-- **C8.** The resolver and both formatter functions are total: in an
explicit error-monad model where every guarded attribute/key dereference can
fail on an absent value, they return `Except.ok` of the pure result for every
input, including a message with completely empty metadata. -/
theorem C8_resolver_and_formatters_total (m : Message) (fi : ForwardInfo) :
    BotHybrid.analyze_forward_originE m =
      Except.ok (BotHybrid.analyze_forward_origin m) ∧
    BotHybrid.get_tipster_nameE fi =
      Except.ok (BotHybrid.get_tipster_name fi) ∧
    BotHybrid.format_forward_responseE fi =
      Except.ok (BotHybrid.format_forward_response fi) :=
  ⟨analyzeE_ok m, tipsterE_ok fi, formatE_ok fi⟩
